import Mathlib

/-!
Verification of `tools/lint.py`, the change-lint orchestrator: it resolves a
git base, lists changed files, classifies them by extension, dispatches each
category to an external linter (cpplint / pylint / gjslint) and sums the
error counts.  The Python functions are shallowly embedded below; external
collaborators (the OS, git, the linter executables and the cpplint library)
are modelled as fields of an environment record, and everything printed to
standard output is modelled as a list of `LogLine` values, one constructor
per print site of the script.  The Python string primitives are embedded by
structural recursion over the character list of a `String`, so that every
definition evaluates inside the kernel.
-/

/-! ### Python string and path primitives used by the script -/

/-- The whitespace characters stripped by Python `str.strip()`. -/
def pyIsSpace (c : Char) : Bool :=
  c = ' ' || c = '\t' || c = '\n' || c = '\r' || c = '\x0b' || c = '\x0c'

/-- Python `str.strip()`: drop whitespace from both ends. -/
def pyStrip (s : String) : String :=
  String.mk (((s.data.dropWhile pyIsSpace).reverse.dropWhile pyIsSpace).reverse)

/-- Python `s.startswith(pre)`. -/
def pyStartswith (s pre : String) : Bool :=
  pre.data.isPrefixOf s.data

/-- Python `s.endswith(post)`. -/
def pyEndswith (s post : String) : Bool :=
  post.data.isSuffixOf s.data

/-- Python `s.lower()` (ASCII case, all that the script compares). -/
def pyLower (s : String) : String :=
  String.mk (s.data.map Char.toLower)

/-- Python `s[:n]`. -/
def pyTake (n : Nat) (s : String) : String :=
  String.mk (s.data.take n)

/-- Python `s[n:]`. -/
def pyDrop (n : Nat) (s : String) : String :=
  String.mk (s.data.drop n)

/-- The worker of `pySplitChar`: accumulate the current piece (reversed). -/
def splitCharGo (sep : Char) : List Char → List Char → List String
  | [], acc => [String.mk acc.reverse]
  | c :: cs, acc =>
    if c = sep then String.mk acc.reverse :: splitCharGo sep cs []
    else splitCharGo sep cs (c :: acc)

/-- Python `s.split(sep)` for a single-character separator (every separator
the script passes is one character).  `''.split(c) == ['']`. -/
def pySplitChar (sep : Char) (s : String) : List String :=
  splitCharGo sep s.data []

/-- Python `s.split(sep, 1)`: split at the first occurrence of `sep` only. -/
def pySplit1Char (sep : Char) (s : String) : List String :=
  let pre := s.data.takeWhile (fun c => c ≠ sep)
  if pre.length = s.data.length then [s]
  else [String.mk pre, String.mk (s.data.drop (pre.length + 1))]

/-- Python `str.splitlines` restricted to `\n` separators: splits on every
newline and drops the final empty piece when the string ends in a newline. -/
def pySplitlines (s : String) : List String :=
  if s = "" then []
  else if pyEndswith s "\n" then pySplitChar '\n' (String.mk s.data.dropLast)
  else pySplitChar '\n' s

/-- `os.path.split` on a POSIX path: the pair (head, tail) around the last
slash, with trailing slashes stripped from the head unless it is all
slashes. -/
def ospathSplit (p : String) : String × String :=
  let cs := p.data
  let tail := (cs.reverse.takeWhile (fun c => c ≠ '/')).reverse
  let headRaw := cs.take (cs.length - tail.length)
  let head :=
    if headRaw.all (fun c => c = '/') then headRaw
    else (headRaw.reverse.dropWhile (fun c => c = '/')).reverse
  (⟨head⟩, ⟨tail⟩)

/-- `os.path.dirname`. -/
def ospathDirname (p : String) : String := (ospathSplit p).1

/-- `os.path.splitext` on a POSIX path: the extension starts at the last dot
of the basename, provided some earlier character of the basename is not a
dot (so dotfiles such as `.py` have no extension). -/
def ospathSplitext (p : String) : String × String :=
  let cs := p.data
  let base := (cs.reverse.takeWhile (fun c => c ≠ '/')).reverse
  if base.contains '.' then
    let extLen := (base.reverse.takeWhile (fun c => c ≠ '.')).length
    let stem := base.take (base.length - extLen - 1)
    if stem.any (fun c => c ≠ '.') then
      (⟨cs.take (cs.length - extLen - 1)⟩,
       ⟨'.' :: (base.reverse.takeWhile (fun c => c ≠ '.')).reverse⟩)
    else (p, "")
  else (p, "")

/-! ### The log model: one constructor per print site of lint.py -/

/-- Every line the script prints, one constructor per print site. -/
inductive LogLine where
  /-- category banners such as `_____ do cpp lint` -/
  | banner (s : String)
  /-- `Skip common dir` in `get_change_file_list` -/
  | skipCommonDir
  /-- the base announcement of `get_tracking_remote` -/
  | baseAnnounce (base : String)
  /-- `Skipping file %s: File doesn't exist.` in the py/js dispatchers -/
  | skipMissing (file : String)
  /-- `pylint %s` / `jslint %s` -/
  | runFile (tool file : String)
  /-- nonempty checker output echoed by the py/js dispatchers -/
  | checkerOutput (s : String)
  /-- the printed exception of a failed checker invocation -/
  | checkerError (s : String)
  /-- `You have error for python importing, please check your PYTHONPATH` -/
  | importHint
  /-- per-category totals such as `pylint errors %d` -/
  | categoryTotal (tool : String) (n : Nat)
  /-- `The total errors found: %d` -/
  | totalErrors (n : Nat)
  /-- `Ignoring file %s` in `do_cpp_lint` -/
  | ignoringFile (file : String)
  /-- the bare filename printed before `cpplint.ProcessFile` -/
  | processingFile (file : String)
  /-- `Skipping file %s` in `do_cpp_lint` -/
  | skippingFile (file : String)
deriving DecidableEq

/-! ### Change enumeration and classification (`get_change_file_list`) -/

def PYTHON_EXTS : List String := [".py"]

def JS_EXTS : List String := [".js"]

/-- The three classified sequences plus the lines printed while
classifying: the return value and standard-output effect of
`get_change_file_list`. -/
structure Classified where
  pyfiles : List String
  jsfiles : List String
  others : List String
  log : List LogLine
deriving DecidableEq

/-- `re.compile('common').match(os.path.dirname(change))`: a literal-pattern
`re.match` succeeds exactly when the dirname starts with `common`. -/
def commonDirMatch (change : String) : Bool :=
  pyStartswith (ospathDirname change) "common"

/-- Lowercased extension lies in `PYTHON_EXTS`. -/
def isPyExt (change : String) : Bool :=
  PYTHON_EXTS.contains (pyLower (ospathSplitext change).2)

/-- Lowercased extension lies in `JS_EXTS`. -/
def isJsExt (change : String) : Bool :=
  JS_EXTS.contains (pyLower (ospathSplitext change).2)

/-- The body of the `for change in changes` loop of
`get_change_file_list`. -/
def classifyStep (acc : Classified) (change : String) : Classified :=
  if commonDirMatch change then
    { acc with log := acc.log ++ [LogLine.skipCommonDir] }
  else if isPyExt change then
    { acc with pyfiles := acc.pyfiles ++ [change] }
  else if isJsExt change then
    { acc with jsfiles := acc.jsfiles ++ [change] }
  else
    { acc with others := acc.others ++ [change] }

/-- The classification loop of `get_change_file_list`, starting from empty
`pyfiles`, `jsfiles`, `others`. -/
def classifyChanges (changes : List String) : Classified :=
  changes.foldl classifyStep { pyfiles := [], jsfiles := [], others := [], log := [] }

/-- `output.strip().split('\n')` followed by the per-line `strip`. -/
def parsedChanges (output : String) : List String :=
  (pySplitChar '\n' (pyStrip output)).map (fun line => pyStrip line)

/-- `get_change_file_list`, taking the raw `git diff --name-only` output. -/
def get_change_file_list (output : String) : Classified :=
  classifyChanges (parsedChanges output)

/-! ### Classification predicates used to characterise the loop -/

/-- A change survives the `common`-directory skip. -/
def keepChange (change : String) : Bool := !commonDirMatch change

/-- The change lands in `pyfiles`. -/
def goesPy (change : String) : Bool := keepChange change && isPyExt change

/-- The change lands in `jsfiles`. -/
def goesJs (change : String) : Bool :=
  keepChange change && !isPyExt change && isJsExt change

/-- The change lands in `others`. -/
def goesOther (change : String) : Bool :=
  keepChange change && !isPyExt change && !isJsExt change

/-! ### The environment: external collaborators of the script -/

/-- Everything external the script consults: the platform, the filesystem,
`os.path.abspath` (a pure function of the current directory and the path),
`GetCommandOutput` for checker invocations (`Except.error` models a raised
exception, `Except.ok` the captured output), the outputs of the three git
commands, and the cpplint library (assumed importable; the fatal
import-failure path of `do_cpp_lint` is outside this model).  `runCmd` takes
the working directory the process is started in and the argument vector. -/
structure Env where
  isWin : Bool
  fileExists : String → Bool
  abspath : String → String → String
  runCmd : String → List String → Except String String
  branchOutput : String
  diffHeadOutput : String
  diffOutput : String → String
  parseArguments : List String → List String
  lintRegexMatch : String → Bool
  lintIgnoreMatch : String → Bool
  processFileErrors : String → Nat

/-- The state threaded through a dispatcher run: the process working
directory and the lines printed so far. -/
structure RunSt where
  cwd : String
  log : List LogLine
deriving DecidableEq

/-- The loop state of `do_py_lint` / `do_js_lint`: the run state plus the
local `error_count` and (for pylint) `_has_import_error`. -/
structure LoopSt where
  cwd : String
  log : List LogLine
  errorCount : Nat
  hasImportError : Bool
deriving DecidableEq

/-- `pylint_cmd`, chosen by platform. -/
def pylint_cmd (env : Env) : List String :=
  if env.isWin then ["pylint.bat"] else ["pylint"]

/-- `jslint_cmd`, chosen by platform. -/
def jslint_cmd (env : Env) : List String :=
  if env.isWin then ["gjslint.exe"] else ["gjslint"]

/-- The fixed gjslint argument list of `do_js_lint`. -/
def jslint_args : List String :=
  ["--strict", "--nojsdoc", "--max_line_length", "100", "--unix_mode"]

/-- `'F0401:' in [error[:6] for error in str(e).splitlines()]`: some line of
the exception text has the pylint import-error code as its first six
characters. -/
def hasImportMarker (e : String) : Bool :=
  (pySplitlines e).any (fun line => pyTake 6 line == "F0401:")

/-- The pylint invocation made for one file: `os.chdir` into the directory
of the file's absolute path, then `GetCommandOutput(pylint_cmd + [py_name])`
there. -/
def pyCheckerRun (env : Env) (cwd pyfile : String) : Except String String :=
  let ab := env.abspath cwd pyfile
  env.runCmd (ospathSplit ab).1 (pylint_cmd env ++ [(ospathSplit ab).2])

/-- The gjslint invocation made for one file. -/
def jsCheckerRun (env : Env) (cwd jsfile : String) : Except String String :=
  let ab := env.abspath cwd jsfile
  env.runCmd (ospathSplit ab).1 (jslint_cmd env ++ (jslint_args ++ [(ospathSplit ab).2]))

/-- One iteration of the `for pyfile in changeset` loop of `do_py_lint`:
skip missing files; otherwise save the working directory, `chdir` into the
file's directory, run pylint, count an error when the stripped output is
empty or the invocation raises, set `_has_import_error` on an F0401 line,
and restore the working directory. -/
def pyLintStep (env : Env) (s : LoopSt) (pyfile : String) : LoopSt :=
  if env.fileExists pyfile ≠ true then
    { s with log := s.log ++ [LogLine.skipMissing pyfile] }
  else
    let previous_cwd := s.cwd
    let s1 : LoopSt :=
      { s with cwd := (ospathSplit (env.abspath s.cwd pyfile)).1,
               log := s.log ++ [LogLine.runFile "pylint" pyfile] }
    let s2 : LoopSt :=
      match pyCheckerRun env previous_cwd pyfile with
      | Except.ok out =>
        let output := pyStrip out
        if output.length > 0 then
          { s1 with log := s1.log ++ [LogLine.checkerOutput output] }
        else
          { s1 with errorCount := s1.errorCount + 1 }
      | Except.error e =>
        let flag :=
          if s1.hasImportError = false ∧ hasImportMarker e then true
          else s1.hasImportError
        { s1 with hasImportError := flag,
                  log := s1.log ++ [LogLine.checkerError e],
                  errorCount := s1.errorCount + 1 }
    { s2 with cwd := previous_cwd }

/-- One iteration of the `for jsfile in changeset` loop of `do_js_lint`:
identical shape, different checker, no import-error flag. -/
def jsLintStep (env : Env) (s : LoopSt) (jsfile : String) : LoopSt :=
  if env.fileExists jsfile ≠ true then
    { s with log := s.log ++ [LogLine.skipMissing jsfile] }
  else
    let previous_cwd := s.cwd
    let s1 : LoopSt :=
      { s with cwd := (ospathSplit (env.abspath s.cwd jsfile)).1,
               log := s.log ++ [LogLine.runFile "jslint" jsfile] }
    let s2 : LoopSt :=
      match jsCheckerRun env previous_cwd jsfile with
      | Except.ok out =>
        let output := pyStrip out
        if output.length > 0 then
          { s1 with log := s1.log ++ [LogLine.checkerOutput output] }
        else
          { s1 with errorCount := s1.errorCount + 1 }
      | Except.error e =>
        { s1 with log := s1.log ++ [LogLine.checkerError e],
                  errorCount := s1.errorCount + 1 }
    { s2 with cwd := previous_cwd }

/-- `do_py_lint`: banner, loop over the changeset, one-shot PYTHONPATH hint,
category total; returns the category error count and the final run state. -/
def do_py_lint (env : Env) (changeset : List String) (st : RunSt) : Nat × RunSt :=
  let s0 : LoopSt :=
    { cwd := st.cwd, log := st.log ++ [LogLine.banner "_____ do python lint"],
      errorCount := 0, hasImportError := false }
  let s := changeset.foldl (pyLintStep env) s0
  let log1 := if s.hasImportError then s.log ++ [LogLine.importHint] else s.log
  (s.errorCount,
   { cwd := s.cwd, log := log1 ++ [LogLine.categoryTotal "pylint" s.errorCount] })

/-- `do_js_lint`: banner, loop over the changeset, category total. -/
def do_js_lint (env : Env) (changeset : List String) (st : RunSt) : Nat × RunSt :=
  let s0 : LoopSt :=
    { cwd := st.cwd, log := st.log ++ [LogLine.banner "\n_____ do JavaScript lint"],
      errorCount := 0, hasImportError := false }
  let s := changeset.foldl (jsLintStep env) s0
  (s.errorCount,
   { cwd := s.cwd, log := s.log ++ [LogLine.categoryTotal "jslint" s.errorCount] })

/-! ### `do_cpp_lint` and the cpplint error override -/

/-- What the monkey-patched `cpplint.Error` does with one diagnostic:
either log it as ignored or hand it to the original recorder (which
increments cpplint's error count). -/
inductive CpplintErrorAction where
  | ignored (filename : String) (linenum : Nat) (message category : String) (confidence : Nat)
  | recorded (filename : String) (linenum : Nat) (category : String) (confidence : Nat) (message : String)
deriving DecidableEq

/-- `MyError`, the override installed over `cpplint.Error` in
`do_cpp_lint`: any diagnostic for a file ending in `resource.h` is logged as
ignored; a `build/header_guard` diagnostic at line 0 for a file ending in
`messages.h` is logged as ignored; everything else goes to the original
error recorder. -/
def MyError (filename : String) (linenum : Nat) (category : String)
    (confidence : Nat) (message : String) : CpplintErrorAction :=
  if pyEndswith filename "resource.h" then
    CpplintErrorAction.ignored filename linenum message category confidence
  else if pyEndswith filename "messages.h" && linenum == 0 && category == "build/header_guard" then
    CpplintErrorAction.ignored filename linenum message category confidence
  else
    CpplintErrorAction.recorded filename linenum category confidence message

/-- The cpplint dispatch loop body of `do_cpp_lint`: apply the allow
(`LINT_REGEX`) pattern, then the deny (`LINT_IGNORE_REGEX`) pattern, and run
`cpplint.ProcessFile` (whose recorded-diagnostic count the environment
supplies) only when allowed and not denied. -/
def cppFileStep (env : Env) (acc : Nat × RunSt) (filename : String) : Nat × RunSt :=
  let n := acc.1
  let st := acc.2
  if env.lintRegexMatch filename then
    if env.lintIgnoreMatch filename then
      (n, { st with log := st.log ++ [LogLine.ignoringFile filename] })
    else
      (n + env.processFileErrors filename,
       { st with log := st.log ++ [LogLine.processingFile filename] })
  else
    (n, { st with log := st.log ++ [LogLine.skippingFile filename] })

/-- `do_cpp_lint` with cpplint importable: banner, early return on an empty
changeset, `cpplint.ParseArguments` over the pass-through arguments plus the
changeset, the allow/deny filtering loop, and the category total.  The
count returned is `cpplint._cpplint_state.error_count`, accumulated per
processed file. -/
def do_cpp_lint (env : Env) (changeset : List String) (args : List String)
    (st : RunSt) : Nat × RunSt :=
  let st := { st with log := st.log ++ [LogLine.banner "_____ do cpp lint"] }
  if changeset.length = 0 then
    (0, { st with log := st.log ++ [LogLine.banner "changeset is empty except python files"] })
  else
    let filenames := env.parseArguments (args ++ changeset)
    let r := filenames.foldl (cppFileStep env) (0, st)
    (r.1, { r.2 with log := r.2.log ++ [LogLine.categoryTotal "cpplint" r.1] })

/-! ### Base resolution (`repo_is_dirty`, `get_tracking_remote`) -/

/-- `repo_is_dirty`: the stripped output of `git diff HEAD` is nonempty. -/
def repo_is_dirty (diffHeadOutput : String) : Bool :=
  pyStrip diffHeadOutput ≠ ""

/-- The `detail` expression of `get_tracking_remote`:
`branch[1:].strip().split(' ', 1)[1].strip().split(' ', 1)[1].strip()`.
`none` models the `IndexError` raised when a field is missing. -/
def parseDetail (line : String) : Option String := do
  let s := pyStrip (pyDrop 1 line)
  let t ← (pySplit1Char ' ' s).get? 1
  let u ← (pySplit1Char ' ' (pyStrip t)).get? 1
  pure (pyStrip u)

/-- The tracking remote computed by the loop of `get_tracking_remote` for
the active branch, before the dirty/HEAD fallback: `some ""` when the
active line carries no verifiable `[remote: ...]` annotation, `some r` when
it does, `none` when the loop raises (no active line, so `remote` is
unbound, or a malformed line raises `IndexError`). -/
def resolvedTrackingRef (branches : List String) : Option String := do
  let line ← branches.find? (fun b => pyStartswith b "*")
  let detail ← parseDetail line
  if pyStartswith detail "[" then
    let r := ((pySplit1Char ']' (pyDrop 1 detail)).headD "")
    let r := pyStrip ((pySplit1Char ':' r).headD "")
    if branches.any (fun b =>
        pyStartswith (pyStrip b) ("remotes/" ++ r) || pyStartswith (pyStrip b) r) then
      pure r
    else
      pure ""
  else
    pure ""

/-- `get_tracking_remote`, taking the outputs of `git branch -vv -a` and
`git diff HEAD`: the verified tracking remote of the active branch if any,
else `HEAD` when the repository is dirty, else `HEAD~`; announces the
chosen base.  `none` models the propagated parse failure. -/
def get_tracking_remote (branchOutput diffHeadOutput : String) :
    Option (String × List LogLine) := do
  let branches := pySplitChar '\n' branchOutput
  let remote ← resolvedTrackingRef branches
  let remote :=
    if remote = "" then
      if repo_is_dirty diffHeadOutput then "HEAD" else "HEAD~"
    else remote
  pure (remote, [LogLine.baseAnnounce remote])

/-! ### The orchestrator (`do_lint`, `main`) -/

/-- The base `do_lint` diffs against: the `--base` option when given,
otherwise the result of `get_tracking_remote`. -/
def resolveBase (env : Env) (base : Option String) : Option String :=
  match base with
  | some b => some b
  | none => (get_tracking_remote env.branchOutput env.diffHeadOutput).map (fun r => r.1)

/-- `do_lint`: resolve the base when none is given, enumerate and classify
the changed files, run the three dispatchers in order (cpp over `others`
with the pass-through arguments, then pylint, then gjslint), sum the three
counts and print the grand total.  `cwd0` is the working directory the
process starts in; `none` models a propagated base-resolution failure. -/
def do_lint (env : Env) (base : Option String) (args : List String)
    (cwd0 : String) : Option (Nat × RunSt) := do
  let (b, log0) ←
    match base with
    | some b => some (b, ([] : List LogLine))
    | none => get_tracking_remote env.branchOutput env.diffHeadOutput
  let c := get_change_file_list (env.diffOutput b)
  let st0 : RunSt := { cwd := cwd0, log := log0 ++ c.log }
  let rCpp := do_cpp_lint env c.others args st0
  let rPy := do_py_lint env c.pyfiles rCpp.2
  let rJs := do_js_lint env c.jsfiles rPy.2
  let total := rCpp.1 + rPy.1 + rJs.1
  pure (total, { rJs.2 with log := rJs.2.log ++ [LogLine.totalErrors total] })

/-- `main`: parse options (modelled as already split into the optional
`--base` value and the pass-through list) and exit with the value returned
by `do_lint`. -/
def main_exit (env : Env) (base : Option String) (args : List String)
    (cwd0 : String) : Option Nat :=
  (do_lint env base args cwd0).map (fun r => r.1)

/-! ### Derived predicates and concrete environments used by the theorems -/

/-- The per-file condition that sets `_has_import_error` in `do_py_lint`
when the loop starts from working directory `cwd`: the file exists and its
pylint invocation raises an exception with an `F0401:` line. -/
def pyImportFailure (env : Env) (cwd : String) (f : String) : Bool :=
  env.fileExists f &&
    match pyCheckerRun env cwd f with
    | Except.error e => hasImportMarker e
    | Except.ok _ => false

/-- A concrete environment: empty repository outputs, no files on disk,
checkers that succeed with empty output, a cpplint that records nothing. -/
def envBase : Env :=
  { isWin := false
    fileExists := fun _ => false
    abspath := fun cwd p => cwd ++ "/" ++ p
    runCmd := fun _ _ => Except.ok ""
    branchOutput := ""
    diffHeadOutput := ""
    diffOutput := fun _ => ""
    parseArguments := fun l => l
    lintRegexMatch := fun _ => true
    lintIgnoreMatch := fun _ => false
    processFileErrors := fun _ => 0 }

/-- Every file exists and the checker succeeds silently. -/
def envSilent : Env := { envBase with fileExists := fun _ => true }

/-- Every file exists and the checker prints a diagnostic. -/
def envChatty : Env :=
  { envBase with
    fileExists := fun _ => true
    runCmd := fun _ _ => Except.ok " W0611: unused import\n" }

/-! ### Helper lemmas -/

lemma string_length_pos_iff (s : String) : 0 < s.length ↔ s ≠ "" := by
  cases s with
  | mk data =>
    cases data with
    | nil => simp [String.length]
    | cons a l =>
      simp only [String.length, List.length_cons]
      constructor
      · intro _ h
        exact List.noConfusion (congrArg String.data h)
      · intro _
        exact Nat.succ_pos _

/-- Claim C10: on an empty diff output `get_change_file_list` returns empty
scripting-language and markup-script sequences and an `others` sequence
holding exactly the empty-string path, so the style-linter dispatcher
receives a nonempty changeset. -/
theorem get_change_file_list_empty_diff :
    get_change_file_list "" =
      { pyfiles := [], jsfiles := [], others := [""], log := [] } := by
  rfl

/-- Claim C5 failing input: the installed `cpplint.Error` override logs a
diagnostic of an unrelated category (`whitespace/tab`, not the missing
header guard) as ignored for a file ending in `resource.h`, instead of
recording it through the original error handler. -/
theorem myError_resource_header_suppresses_unrelated_category :
    MyError "ui/resource.h" 12 "whitespace/tab" 5 "Tab found; use spaces" =
      CpplintErrorAction.ignored "ui/resource.h" 12 "Tab found; use spaces"
        "whitespace/tab" 5 := by
  rfl

/-- Claim C3: every per-file invocation of the scripting-language and
markup-script dispatchers leaves the working directory exactly as it found
it, on every exit path — the missing-file skip, a checker that returns
output, and a checker invocation that raises (`Except.error`) all restore
`previous_cwd`. -/
theorem lint_step_restores_cwd (env : Env) (s : LoopSt) (f : String) :
    (pyLintStep env s f).cwd = s.cwd ∧ (jsLintStep env s f).cwd = s.cwd := by
  constructor
  · unfold pyLintStep
    split
    · rfl
    · rfl
  · unfold jsLintStep
    split
    · rfl
    · rfl

/-- Claim C9: a changeset file that does not exist on disk is announced as
skipped by both per-file loops and leaves the loop state otherwise
untouched — in particular it contributes zero to the category error
count. -/
theorem missing_file_skipped (env : Env) (s : LoopSt) (f : String)
    (h : env.fileExists f = false) :
    pyLintStep env s f = { s with log := s.log ++ [LogLine.skipMissing f] } ∧
    jsLintStep env s f = { s with log := s.log ++ [LogLine.skipMissing f] } ∧
    (pyLintStep env s f).errorCount = s.errorCount ∧
    (jsLintStep env s f).errorCount = s.errorCount := by
  have hne : env.fileExists f ≠ true := by simp [h]
  refine ⟨?_, ?_, ?_, ?_⟩ <;> simp [pyLintStep, jsLintStep, hne]

/-- Witness for C9 at a concrete input: a file reported missing by the
filesystem is skipped with an announcement and adds nothing to the error
count. -/
theorem missing_file_skipped_witness :
    envBase.fileExists "gone.py" = false ∧
    pyLintStep envBase { cwd := "/w", log := [], errorCount := 0, hasImportError := false } "gone.py"
      = { cwd := "/w", log := [LogLine.skipMissing "gone.py"], errorCount := 0, hasImportError := false } ∧
    (jsLintStep envBase { cwd := "/w", log := [], errorCount := 0, hasImportError := false } "gone.js").errorCount = 0 := by
  have h := missing_file_skipped envBase
    { cwd := "/w", log := [], errorCount := 0, hasImportError := false } "gone.py" rfl
  have h2 := missing_file_skipped envBase
    { cwd := "/w", log := [], errorCount := 0, hasImportError := false } "gone.js" rfl
  exact ⟨rfl, h.1, h2.2.2.2⟩

/-- Claim C2: for a scripting-language file that exists on disk, the
per-file pylint invocation adds exactly one to the category error count
precisely when it raises or when its stripped output is empty; nonempty
(stripped) output is echoed to standard output and adds nothing. -/
theorem py_lint_error_policy (env : Env) (s : LoopSt) (f : String)
    (h : env.fileExists f = true) :
    ((pyLintStep env s f).errorCount = s.errorCount + 1 ↔
      (∃ e, pyCheckerRun env s.cwd f = Except.error e) ∨
      (∃ out, pyCheckerRun env s.cwd f = Except.ok out ∧ pyStrip out = "")) ∧
    (∀ out, pyCheckerRun env s.cwd f = Except.ok out → pyStrip out ≠ "" →
      (pyLintStep env s f).errorCount = s.errorCount ∧
      LogLine.checkerOutput (pyStrip out) ∈ (pyLintStep env s f).log) := by
  have hne : ¬ env.fileExists f ≠ true := by simp [h]
  cases hr : pyCheckerRun env s.cwd f with
  | ok out =>
    by_cases hout : pyStrip out = ""
    · have hlen : ¬ 0 < (pyStrip out).length := by
        rw [string_length_pos_iff]
        simp [hout]
      constructor
      · simp only [pyLintStep, if_neg hne, hr, gt_iff_lt, if_neg hlen]
        exact ⟨fun _ => Or.inr ⟨out, rfl, hout⟩, fun _ => trivial⟩
      · intro out' hout' hne'
        injection hout' with hx
        subst hx
        exact absurd hout hne'
    · have hlen : 0 < (pyStrip out).length := (string_length_pos_iff _).2 hout
      constructor
      · simp only [pyLintStep, if_neg hne, hr, gt_iff_lt, if_pos hlen]
        constructor
        · intro hcnt
          exact absurd hcnt (by simp)
        · rintro (⟨e, he⟩ | ⟨o, ho, hoe⟩)
          · exact Except.noConfusion he
          · injection ho with hx
            subst hx
            exact absurd hoe hout
      · intro out' hout' _hne'
        injection hout' with hx
        subst hx
        constructor
        · simp only [pyLintStep, if_neg hne, hr, gt_iff_lt, if_pos hlen]
        · simp only [pyLintStep, if_neg hne, hr, gt_iff_lt, if_pos hlen]
          simp
  | error e =>
    constructor
    · simp only [pyLintStep, if_neg hne, hr]
      exact ⟨fun _ => Or.inl ⟨e, rfl⟩, fun _ => trivial⟩
    · intro out' hout' _
      exact Except.noConfusion hout'

/-- Witness for C2 at concrete inputs: a silent checker costs one error; a
checker that prints a diagnostic costs nothing and its output is echoed. -/
theorem py_lint_error_policy_witness :
    (pyLintStep envSilent { cwd := "/w", log := [], errorCount := 0, hasImportError := false } "a.py").errorCount = 0 + 1 ∧
    (pyLintStep envChatty { cwd := "/w", log := [], errorCount := 0, hasImportError := false } "a.py").errorCount = 0 ∧
    LogLine.checkerOutput "W0611: unused import" ∈
      (pyLintStep envChatty { cwd := "/w", log := [], errorCount := 0, hasImportError := false } "a.py").log := by
  have h1 := py_lint_error_policy envSilent
    { cwd := "/w", log := [], errorCount := 0, hasImportError := false } "a.py" rfl
  have h2 := py_lint_error_policy envChatty
    { cwd := "/w", log := [], errorCount := 0, hasImportError := false } "a.py" rfl
  refine ⟨?_, ?_, ?_⟩
  · exact h1.1.mpr (Or.inr ⟨"", rfl, rfl⟩)
  · exact (h2.2 " W0611: unused import\n" rfl (by decide)).1
  · exact (h2.2 " W0611: unused import\n" rfl (by decide)).2

lemma pyLintStep_cwd (env : Env) (s : LoopSt) (f : String) :
    (pyLintStep env s f).cwd = s.cwd := by
  unfold pyLintStep
  split
  · rfl
  · rfl

lemma pyLintStep_flag (env : Env) (s : LoopSt) (f : String) :
    (pyLintStep env s f).hasImportError
      = (s.hasImportError || pyImportFailure env s.cwd f) := by
  unfold pyLintStep pyImportFailure
  split
  · rename_i hne
    have hx : env.fileExists f = false := by
      cases hv : env.fileExists f
      · rfl
      · exact absurd hv (by simpa using hne)
    simp [hx]
  · rename_i hex
    have hx : env.fileExists f = true := by simpa using hex
    cases hr : pyCheckerRun env s.cwd f with
    | ok out =>
      simp only [hx, hr, Bool.true_and]
      split
      · simp
      · simp
    | error e =>
      simp only [hx, hr, Bool.true_and]
      cases hf : s.hasImportError <;> cases hm : hasImportMarker e <;> simp [hf, hm]

lemma pyLintStep_hint_count (env : Env) (s : LoopSt) (f : String) :
    List.count LogLine.importHint (pyLintStep env s f).log
      = List.count LogLine.importHint s.log := by
  unfold pyLintStep
  split
  · simp [List.count_append]
  · cases hr : pyCheckerRun env s.cwd f with
    | ok out =>
      simp only [hr]
      split
      · simp [List.count_append]
      · simp [List.count_append]
    | error e =>
      simp only [hr]
      simp [List.count_append]

lemma pyFold_invariant (env : Env) (cs : List String) (s : LoopSt) :
    ((cs.foldl (pyLintStep env) s).cwd = s.cwd) ∧
    ((cs.foldl (pyLintStep env) s).hasImportError
        = (s.hasImportError || cs.any (pyImportFailure env s.cwd))) ∧
    (List.count LogLine.importHint (cs.foldl (pyLintStep env) s).log
        = List.count LogLine.importHint s.log) := by
  induction cs generalizing s with
  | nil => simp
  | cons f fs ih =>
    have h1 := pyLintStep_cwd env s f
    have h2 := pyLintStep_flag env s f
    have h3 := pyLintStep_hint_count env s f
    have ihs := ih (pyLintStep env s f)
    simp only [List.foldl_cons, List.any_cons]
    refine ⟨?_, ?_, ?_⟩
    · rw [ihs.1, h1]
    · rw [ihs.2.1, h2, h1, Bool.or_assoc]
    · rw [ihs.2.2, h3]

/-- Claim C8: across one `do_py_lint` run the PYTHONPATH hint appears in
the output exactly once when at least one existing file's pylint invocation
raises with an `F0401:` (module-not-found) line, no matter how many such
failures occur, and not at all otherwise. -/
theorem import_hint_printed_once (env : Env) (cs : List String) (st : RunSt) :
    List.count LogLine.importHint (do_py_lint env cs st).2.log
      = List.count LogLine.importHint st.log
        + (if cs.any (pyImportFailure env st.cwd) then 1 else 0) := by
  obtain ⟨hcwd, hflag, hcnt⟩ := pyFold_invariant env cs
    { cwd := st.cwd, log := st.log ++ [LogLine.banner "_____ do python lint"],
      errorCount := 0, hasImportError := false }
  simp only [do_py_lint, hflag, Bool.false_or]
  by_cases hany : cs.any (pyImportFailure env st.cwd)
  · simp [hany, List.count_append, hcnt]
  · simp [hany, List.count_append, hcnt]

/-- Claim C6: when the active branch has no verified tracking reference
(the loop of `get_tracking_remote` leaves `remote` empty), the resolver
returns `HEAD` when the working tree has uncommitted modifications and
`HEAD~` otherwise, announcing the choice. -/
theorem get_tracking_remote_no_tracking (branchOutput diffHeadOutput : String)
    (h : resolvedTrackingRef (pySplitChar '\n' branchOutput) = some "") :
    get_tracking_remote branchOutput diffHeadOutput =
      some ((if repo_is_dirty diffHeadOutput then "HEAD" else "HEAD~"),
        [LogLine.baseAnnounce (if repo_is_dirty diffHeadOutput then "HEAD" else "HEAD~")]) := by
  simp only [get_tracking_remote]
  rw [h]
  simp

/-- Witness for C6 at a concrete input: an active branch line without a
tracking annotation and a clean working tree resolve to `HEAD~`; the same
line with a dirty tree resolves to `HEAD`. -/
theorem get_tracking_remote_no_tracking_witness :
    resolvedTrackingRef (pySplitChar '\n' "* master abc123 my subject") = some "" ∧
    get_tracking_remote "* master abc123 my subject" ""
      = some ("HEAD~", [LogLine.baseAnnounce "HEAD~"]) ∧
    get_tracking_remote "* master abc123 my subject" "diff --git a/x b/x"
      = some ("HEAD", [LogLine.baseAnnounce "HEAD"]) := by
  have h1 := get_tracking_remote_no_tracking "* master abc123 my subject" "" rfl
  have h2 := get_tracking_remote_no_tracking "* master abc123 my subject"
    "diff --git a/x b/x" rfl
  exact ⟨rfl, h1, h2⟩

lemma classify_foldl_eq (changes : List String) (acc : Classified) :
    changes.foldl classifyStep acc =
      { pyfiles := acc.pyfiles ++ changes.filter goesPy,
        jsfiles := acc.jsfiles ++ changes.filter goesJs,
        others := acc.others ++ changes.filter goesOther,
        log := acc.log ++ (changes.filter commonDirMatch).map (fun _ => LogLine.skipCommonDir) } := by
  induction changes generalizing acc with
  | nil => simp
  | cons c cs ih =>
    rw [List.foldl_cons, ih]
    cases hcm : commonDirMatch c
    · cases hpy : isPyExt c
      · cases hjs : isJsExt c
        · simp [classifyStep, goesPy, goesJs, goesOther, keepChange, hcm, hpy, hjs,
            List.filter_cons]
        · simp [classifyStep, goesPy, goesJs, goesOther, keepChange, hcm, hpy, hjs,
            List.filter_cons]
      · simp [classifyStep, goesPy, goesJs, goesOther, keepChange, hcm, hpy,
          List.filter_cons]
    · simp [classifyStep, goesPy, goesJs, goesOther, keepChange, hcm,
        List.filter_cons]

lemma classifyChanges_eq (changes : List String) :
    classifyChanges changes =
      { pyfiles := changes.filter goesPy,
        jsfiles := changes.filter goesJs,
        others := changes.filter goesOther,
        log := (changes.filter commonDirMatch).map (fun _ => LogLine.skipCommonDir) } := by
  simpa [classifyChanges] using
    classify_foldl_eq changes { pyfiles := [], jsfiles := [], others := [], log := [] }

lemma goes_mutually_exclusive (c : String) :
    (goesPy c && goesJs c) = false ∧
    (goesPy c && goesOther c) = false ∧
    (goesJs c && goesOther c) = false ∧
    keepChange c = (goesPy c || goesJs c || goesOther c) := by
  unfold goesPy goesJs goesOther keepChange
  cases commonDirMatch c <;> cases isPyExt c <;> cases isJsExt c <;> simp

lemma count_filter_eq (p : String → Bool) (l : List String) (a : String) :
    List.count a (l.filter p) = if p a then List.count a l else 0 := by
  by_cases hp : p a
  · rw [List.count_filter hp, if_pos hp]
  · rw [if_neg hp, List.count_eq_zero]
    intro hmem
    exact hp (List.mem_filter.1 hmem).2

/-- Claim C4: a changed path whose containing directory matches the
`common` pattern is announced as skipped and appears in none of the three
sequences returned by `get_change_file_list`. -/
theorem common_dir_paths_skipped (output : String) (c : String)
    (hc : c ∈ parsedChanges output)
    (hd : pyStartswith (ospathDirname c) "common" = true) :
    c ∉ (get_change_file_list output).pyfiles ∧
    c ∉ (get_change_file_list output).jsfiles ∧
    c ∉ (get_change_file_list output).others ∧
    LogLine.skipCommonDir ∈ (get_change_file_list output).log := by
  have hcm : commonDirMatch c = true := hd
  simp only [get_change_file_list, classifyChanges_eq]
  refine ⟨?_, ?_, ?_, ?_⟩
  · intro hmem
    have := (List.mem_filter.1 hmem).2
    simp [goesPy, keepChange, hcm] at this
  · intro hmem
    have := (List.mem_filter.1 hmem).2
    simp [goesJs, keepChange, hcm] at this
  · intro hmem
    have := (List.mem_filter.1 hmem).2
    simp [goesOther, keepChange, hcm] at this
  · exact List.mem_map.2 ⟨c, List.mem_filter.2 ⟨hc, hcm⟩, rfl⟩

/-- Witness for C4 at a concrete input: `common/util.h` is skipped with an
announcement and lands in no output sequence. -/
theorem common_dir_paths_skipped_witness :
    "common/util.h" ∈ parsedChanges "common/util.h" ∧
    "common/util.h" ∉ (get_change_file_list "common/util.h").others ∧
    LogLine.skipCommonDir ∈ (get_change_file_list "common/util.h").log := by
  have h := common_dir_paths_skipped "common/util.h" "common/util.h" (by decide) rfl
  exact ⟨by decide, h.2.2.1, h.2.2.2⟩

/-- Claim C1: the three sequences returned by `get_change_file_list` are
pairwise disjoint, introduce no duplicates beyond those already in the
parsed changed-file list, and together form a permutation of that list
minus the paths skipped by the `common` directory rule; every surviving
path lands in one of the three sequences. -/
theorem classification_partitions_changes (output : String) :
    (∀ x, ¬ (x ∈ (get_change_file_list output).pyfiles ∧ x ∈ (get_change_file_list output).jsfiles) ∧
          ¬ (x ∈ (get_change_file_list output).pyfiles ∧ x ∈ (get_change_file_list output).others) ∧
          ¬ (x ∈ (get_change_file_list output).jsfiles ∧ x ∈ (get_change_file_list output).others)) ∧
    (∀ x, List.count x ((get_change_file_list output).pyfiles ++
            (get_change_file_list output).jsfiles ++ (get_change_file_list output).others)
          ≤ List.count x (parsedChanges output)) ∧
    ((get_change_file_list output).pyfiles ++ (get_change_file_list output).jsfiles ++
        (get_change_file_list output).others).Perm
      ((parsedChanges output).filter keepChange) ∧
    (∀ x ∈ parsedChanges output, keepChange x = true →
      x ∈ (get_change_file_list output).pyfiles ∨
      x ∈ (get_change_file_list output).jsfiles ∨
      x ∈ (get_change_file_list output).others) := by
  simp only [get_change_file_list, classifyChanges_eq]
  refine ⟨?_, ?_, ?_, ?_⟩
  · intro x
    have hex := goes_mutually_exclusive x
    refine ⟨?_, ?_, ?_⟩
    · rintro ⟨h1, h2⟩
      have e1 := (List.mem_filter.1 h1).2
      have e2 := (List.mem_filter.1 h2).2
      rw [e1, e2] at hex
      simp at hex
    · rintro ⟨h1, h2⟩
      have e1 := (List.mem_filter.1 h1).2
      have e2 := (List.mem_filter.1 h2).2
      rw [e1, e2] at hex
      simp at hex
    · rintro ⟨h1, h2⟩
      have e1 := (List.mem_filter.1 h1).2
      have e2 := (List.mem_filter.1 h2).2
      rw [e1, e2] at hex
      simp at hex
  · intro x
    have hex := goes_mutually_exclusive x
    simp only [List.count_append]
    rw [count_filter_eq goesPy, count_filter_eq goesJs, count_filter_eq goesOther]
    cases hpy : goesPy x <;> cases hjs : goesJs x <;> cases hot : goesOther x <;>
        rw [hpy, hjs, hot] at hex <;> simp_all
  · rw [List.perm_iff_count]
    intro x
    have hex := goes_mutually_exclusive x
    simp only [List.count_append]
    rw [count_filter_eq goesPy, count_filter_eq goesJs, count_filter_eq goesOther,
      count_filter_eq keepChange]
    cases hpy : goesPy x <;> cases hjs : goesJs x <;> cases hot : goesOther x <;>
        rw [hpy, hjs, hot] at hex <;> simp_all
  · intro x hx hkeep
    have hex := (goes_mutually_exclusive x).2.2.2
    rw [hkeep] at hex
    have h' : goesPy x = true ∨ goesJs x = true ∨ goesOther x = true := by
      simpa [or_assoc] using hex.symm
    rcases h' with h | h | h
    · exact Or.inl (List.mem_filter.2 ⟨hx, h⟩)
    · exact Or.inr (Or.inl (List.mem_filter.2 ⟨hx, h⟩))
    · exact Or.inr (Or.inr (List.mem_filter.2 ⟨hx, h⟩))

/-- Witness for C1 at a concrete input: in the spec's example changeset the
surviving path `c.h` lands in one of the three sequences, and the three
sequences permute the kept changes. -/
theorem classification_partitions_changes_witness :
    "c.h" ∈ parsedChanges "a.py\nb.js\nc.h\ncommon/util.h" ∧
    keepChange "c.h" = true ∧
    ("c.h" ∈ (get_change_file_list "a.py\nb.js\nc.h\ncommon/util.h").pyfiles ∨
     "c.h" ∈ (get_change_file_list "a.py\nb.js\nc.h\ncommon/util.h").jsfiles ∨
     "c.h" ∈ (get_change_file_list "a.py\nb.js\nc.h\ncommon/util.h").others) := by
  have h := classification_partitions_changes "a.py\nb.js\nc.h\ncommon/util.h"
  exact ⟨by decide, rfl, h.2.2.2 "c.h" (by decide) rfl⟩

/-- Claim C7: whenever the base resolves, `do_lint` returns — and `main`
exposes as the process exit outcome — exactly the sum of the three error
counts returned by the style, scripting-language and markup-script
dispatchers over the classified changesets (so the run is clean exactly
when all three counts are zero). -/
theorem do_lint_returns_category_sum (env : Env) (base : Option String)
    (args : List String) (cwd0 : String) (b : String)
    (hb : resolveBase env base = some b) :
    ∃ log0 : List LogLine,
      let c := get_change_file_list (env.diffOutput b)
      let rCpp := do_cpp_lint env c.others args { cwd := cwd0, log := log0 ++ c.log }
      let rPy := do_py_lint env c.pyfiles rCpp.2
      let rJs := do_js_lint env c.jsfiles rPy.2
      do_lint env base args cwd0 =
        some (rCpp.1 + rPy.1 + rJs.1,
          { rJs.2 with log := rJs.2.log ++ [LogLine.totalErrors (rCpp.1 + rPy.1 + rJs.1)] }) ∧
      main_exit env base args cwd0 = some (rCpp.1 + rPy.1 + rJs.1) := by
  cases base with
  | some b' =>
    have hbb : b' = b := by
      simpa [resolveBase] using hb
    subst hbb
    exact ⟨[], rfl, rfl⟩
  | none =>
    cases hg : get_tracking_remote env.branchOutput env.diffHeadOutput with
    | none =>
      rw [resolveBase, hg] at hb
      simp at hb
    | some r =>
      obtain ⟨rb, rlog⟩ := r
      rw [resolveBase, hg] at hb
      simp at hb
      subst hb
      refine ⟨rlog, ?_, ?_⟩
      · simp only [do_lint, hg]
        rfl
      · simp only [main_exit, do_lint, hg]
        rfl

/-- The spec's worked example: changed files `a.py b.js c.h common/util.h`,
a style linter that finds 2 issues per processed file, and checkers that
produce nonempty output. -/
def envExample : Env :=
  { envBase with
    fileExists := fun _ => true
    runCmd := fun _ _ => Except.ok "one issue\n"
    diffOutput := fun _ => "a.py\nb.js\nc.h\ncommon/util.h"
    processFileErrors := fun _ => 2 }

/-- Witness for C7 at the spec's example: the style linter records 2
diagnostics on `c.h`, both checkers print nonempty output (0 errors each),
and the run exits with 2. -/
theorem do_lint_returns_category_sum_witness :
    resolveBase envExample (some "HEAD") = some "HEAD" ∧
    main_exit envExample (some "HEAD") [] "/w" = some 2 := by
  obtain ⟨log0, h⟩ := do_lint_returns_category_sum envExample (some "HEAD") [] "/w" "HEAD" rfl
  exact ⟨rfl, h.2.trans rfl⟩
